import Mathlib

/-!
A shallow embedding of the core decision engines of the LMS repository
(`lms/app/engines` together with the repository queries they rely on).

Conventions of the embedding:
* identifiers are `Nat` (the source uses opaque UUIDs);
* calendar dates and instants are `Int` (day ordinals; the source's
  `date`/`datetime` values are totally ordered and only compared or
  subtracted, so an integer timeline is faithful);
* fractional day counts (`total_days` and the balance components, `Float`
  columns in the source) are `ℚ`, keeping the arithmetic exact and
  decidable;
* each engine method becomes a pure function: database rows are passed in
  as lists, fallible methods return `Except DomainError`, and generated
  primary keys / random request numbers / `now` timestamps are explicit
  parameters.
-/

/-- Embeds `LeaveRequestStatus` from `core/enums.py`. -/
inductive LeaveRequestStatus where
  | draft
  | pendingApproval
  | approved
  | rejected
  | cancelled
  | withdrawn
deriving DecidableEq, Repr

/-- Embeds `WorkflowStepStatus` from `core/enums.py`. -/
inductive WorkflowStepStatus where
  | pending
  | approved
  | rejected
  | skipped
  | escalated
  | delegated
deriving DecidableEq, Repr

/-- Embeds `EligibilityType` from `core/enums.py`. -/
inductive EligibilityType where
  | immediate
  | afterProbation
  | afterTenure
  | custom
deriving DecidableEq, Repr

/-- Domain error taxonomy from `core/exceptions.py`, restricted to the
constructors and payloads the embedded engines raise. -/
inductive DomainError where
  | entityNotFound
  | insufficientBalance (available : ℚ) (requested : ℚ) (leave_type : String)
  | workflowState (current_state : String) (attempted_action : String)
  | approvalError
  | workflowNotFound
  | leaveOverlap (request_ids : List Nat)
  | policyNotFound
  | eligibility
deriving DecidableEq, Repr

/-- Embeds `User` from `models/user.py`, restricted to the columns the engines read. -/
structure User where
  id : Nat
  organization_id : Nat
  manager_id : Option Nat
  probation_end_date : Option Int
  hire_date : Option Int
deriving DecidableEq, Repr

/-- Embeds `LeaveType` from `models/leave.py`, restricted to the columns the engines read. -/
structure LeaveType where
  id : Nat
  organization_id : Nat
  code : String
  is_active : Bool
deriving DecidableEq, Repr

/-- Embeds `LeavePolicy` from `models/leave.py`, restricted to the columns the engines read. -/
structure LeavePolicy where
  id : Nat
  organization_id : Nat
  leave_type_id : Nat
  effective_from : Int
  effective_to : Option Int
  is_active : Bool
  eligibility_type : EligibilityType
  eligibility_tenure_days : Option Int
deriving DecidableEq, Repr

/-- Embeds `LeaveBalance` from `models/leave.py`.  `leave_type_code` stands for the
`leave_type` relationship (only its `code` is read); `none` models a missing
related row. -/
structure LeaveBalance where
  id : Nat
  user_id : Nat
  leave_type_id : Nat
  period_start : Int
  period_end : Int
  opening_balance : ℚ
  accrued : ℚ
  used : ℚ
  pending : ℚ
  adjusted : ℚ
  carried_forward : ℚ
  encashed : ℚ
  expired : ℚ
  leave_type_code : Option String
deriving DecidableEq, Repr

/-- The `available_balance` property of `LeaveBalance`
(`models/leave.py`, lines 212-224). -/
def LeaveBalance.available_balance (b : LeaveBalance) : ℚ :=
  b.opening_balance + b.accrued + b.carried_forward + b.adjusted
    - b.used - b.pending - b.encashed - b.expired

/-- Embeds `LeaveRequest` from `models/workflow.py`, restricted to the columns the
engines read or write. -/
structure LeaveRequest where
  id : Nat
  request_number : String
  user_id : Nat
  leave_type_id : Nat
  policy_id : Nat
  start_date : Int
  end_date : Int
  total_days : ℚ
  reason : Option String
  status : LeaveRequestStatus
  submitted_at : Option Int
  decided_at : Option Int
  decided_by : Option Nat
  decision_remarks : Option String
  cancelled_at : Option Int
  cancelled_by : Option Nat
  cancellation_reason : Option String
deriving DecidableEq, Repr

/-- Embeds `LeaveRequestDate` from `models/workflow.py`. -/
structure LeaveRequestDate where
  leave_request_id : Nat
  leave_date : Int
  day_value : ℚ
deriving DecidableEq, Repr

/-- Embeds `WorkflowConfiguration` from `models/workflow.py`, restricted to the
columns `list_active_for_org` reads. -/
structure WorkflowConfiguration where
  id : Nat
  organization_id : Nat
  priority : Int
  effective_from : Int
  effective_to : Option Int
  is_active : Bool
deriving DecidableEq, Repr

/-- Embeds `WorkflowStep` from `models/workflow.py`, restricted to the columns the
engines read or write. -/
structure WorkflowStep where
  id : Nat
  leave_request_id : Nat
  step_order : Nat
  step_name : String
  approver_id : Nat
  status : WorkflowStepStatus
  actioned_at : Option Int
  action_remarks : Option String
deriving DecidableEq, Repr

namespace BalanceEngine

/-- Embeds `LeaveBalanceRepository.get_current_balance` (`repositories/leave_repository.py`,
lines 57-65): first row whose (user, leave type) match and whose period covers
`on_date`. -/
def get_current_balance (balances : List LeaveBalance) (user_id leave_type_id : Nat)
    (on_date : Int) : Option LeaveBalance :=
  (balances.filter (fun b =>
    b.user_id = user_id ∧ b.leave_type_id = leave_type_id ∧
      b.period_start ≤ on_date ∧ on_date ≤ b.period_end)).head?

/-- The `balance.leave_type.code if balance.leave_type else "unknown"` access in
`BalanceEngine.on_submit`. -/
def codeOrUnknown (b : LeaveBalance) : String :=
  match b.leave_type_code with
  | some c => c
  | none => "unknown"

/-- Embeds `BalanceEngine.on_submit` (`engines/balance_engine.py`, lines 59-116), applied
to the balance row fetched by `get_current_balance` (`none` = no row).  Returns
the updated row. -/
def on_submit (balance : Option LeaveBalance) (leave_request : LeaveRequest) :
    Except DomainError LeaveBalance :=
  match balance with
  | none =>
      .error (.insufficientBalance 0 leave_request.total_days "unknown")
  | some balance =>
      let available := balance.available_balance
      let requested_days := leave_request.total_days
      if ¬ (available ≥ requested_days) then
        .error (.insufficientBalance available requested_days (codeOrUnknown balance))
      else
        let new_pending := balance.pending + requested_days
        .ok { balance with pending := new_pending }

/-- Embeds `BalanceEngine.on_reject` (`engines/balance_engine.py`, lines 173-217), applied
to the fetched balance row.  Returns the (possibly unchanged) row state. -/
def on_reject (balance : Option LeaveBalance) (leave_request : LeaveRequest) :
    Option LeaveBalance :=
  match balance with
  | none => none
  | some balance =>
      let pending := balance.pending
      let requested_days := leave_request.total_days
      if ¬ (pending ≥ requested_days) then
        some balance
      else
        some { balance with pending := pending - requested_days }

/-- Embeds `BalanceEngine.on_withdraw` (`engines/balance_engine.py`, lines 219-263), applied
to the fetched balance row.  Returns the (possibly unchanged) row state. -/
def on_withdraw (balance : Option LeaveBalance) (leave_request : LeaveRequest) :
    Option LeaveBalance :=
  match balance with
  | none => none
  | some balance =>
      let pending := balance.pending
      let requested_days := leave_request.total_days
      if ¬ (pending ≥ requested_days) then
        some balance
      else
        some { balance with pending := pending - requested_days }

end BalanceEngine

namespace PolicyEngine

/-- The relation underlying `ORDER BY effective_from DESC` in
`LeavePolicyRepository.get_active_for_leave_type`. -/
def effectiveFromDesc (p q : LeavePolicy) : Prop :=
  q.effective_from ≤ p.effective_from

instance : DecidableRel effectiveFromDesc := fun p q =>
  inferInstanceAs (Decidable (q.effective_from ≤ p.effective_from))

instance : IsTotal LeavePolicy effectiveFromDesc :=
  ⟨fun p q => le_total q.effective_from p.effective_from⟩

instance : IsTrans LeavePolicy effectiveFromDesc :=
  ⟨fun _ _ _ h1 h2 => le_trans h2 h1⟩

/-- Embeds `LeavePolicyRepository.get_active_for_leave_type`
(`repositories/leave_repository.py`, lines 37-45): active policies of the
organization and leave type, ordered by `effective_from` descending.  The
source contains no filter on the effective window. -/
def get_active_for_leave_type (policies : List LeavePolicy)
    (organization_id leave_type_id : Nat) : List LeavePolicy :=
  List.insertionSort effectiveFromDesc
    (policies.filter (fun p =>
      p.organization_id = organization_id ∧ p.leave_type_id = leave_type_id ∧
        p.is_active = true))

/-- Embeds `PolicyEngine.resolve_policy_for_user` (`engines/policy_engine.py`,
lines 49-76).  The source computes a default `on_datetime` but never uses it;
the parameter is kept to mirror the signature. -/
def resolve_policy_for_user (policies : List LeavePolicy) (user : User)
    (leave_type_id : Nat) (on_datetime : Int) : Except DomainError LeavePolicy :=
  match get_active_for_leave_type policies user.organization_id leave_type_id with
  | [] => .error .policyNotFound
  | chosen :: _ => .ok chosen

/-- Embeds `PolicyEngine.assert_eligible` (`engines/policy_engine.py`, lines 78-106).
Instants are integer day ordinals, so the `(on_datetime - hire_date).days`
tenure is the plain difference. -/
def assert_eligible (user : User) (policy : LeavePolicy) (on_datetime : Int) :
    Except DomainError Unit :=
  match policy.eligibility_type with
  | .afterProbation =>
      match user.probation_end_date with
      | none => .error .eligibility
      | some probation_end =>
          if on_datetime < probation_end then .error .eligibility else .ok ()
  | .afterTenure =>
      match user.hire_date with
      | none => .error .eligibility
      | some hire_date =>
          let tenure_days := on_datetime - hire_date
          let required := policy.eligibility_tenure_days.getD 0
          if tenure_days < required then .error .eligibility else .ok ()
  | _ => .ok ()

end PolicyEngine

namespace WorkflowEngine

/-- Result union of `approve` / `reject` / `withdraw`
(`StepActivated` and `WorkflowCompleted` dataclasses in
`engines/workflow_engine.py`). -/
inductive WorkflowResult where
  | stepActivated (step : WorkflowStep) (is_final : Bool)
  | workflowCompleted (leave_request : LeaveRequest) (final_status : LeaveRequestStatus)
deriving DecidableEq, Repr

/-- The relation underlying `ORDER BY priority DESC` in
`WorkflowConfigurationRepository.list_active_for_org`. -/
def priorityDesc (p q : WorkflowConfiguration) : Prop :=
  q.priority ≤ p.priority

instance : DecidableRel priorityDesc := fun p q =>
  inferInstanceAs (Decidable (q.priority ≤ p.priority))

instance : IsTotal WorkflowConfiguration priorityDesc :=
  ⟨fun p q => le_total q.priority p.priority⟩

instance : IsTrans WorkflowConfiguration priorityDesc :=
  ⟨fun _ _ _ h1 h2 => le_trans h2 h1⟩

/-- The relation underlying `ORDER BY step_order` in
`WorkflowEngine.approve`. -/
def stepOrderAsc (s t : WorkflowStep) : Prop :=
  s.step_order ≤ t.step_order

instance : DecidableRel stepOrderAsc := fun s t =>
  inferInstanceAs (Decidable (s.step_order ≤ t.step_order))

/-- Embeds `WorkflowConfigurationRepository.list_active_for_org`
(`repositories/workflow_repository.py`, lines 25-35). -/
def list_active_for_org (workflows : List WorkflowConfiguration)
    (organization_id : Nat) (on_date : Option Int) : List WorkflowConfiguration :=
  let base := workflows.filter (fun w =>
    w.organization_id = organization_id ∧ w.is_active = true)
  let base :=
    match on_date with
    | none => base
    | some d =>
        base.filter (fun w =>
          decide (w.effective_from ≤ d) &&
            (match w.effective_to with
             | none => true
             | some t2 => decide (d ≤ t2)))
  List.insertionSort priorityDesc base

/-- Embeds `WorkflowEngine.resolve_workflow` (`engines/workflow_engine.py`,
lines 90-110); `on_datetime` defaults to `now`, passed explicitly here. -/
def resolve_workflow (workflows : List WorkflowConfiguration)
    (organization_id : Nat) (on_datetime : Int) :
    Except DomainError WorkflowConfiguration :=
  match list_active_for_org workflows organization_id (some on_datetime) with
  | [] => .error .workflowNotFound
  | chosen :: _ => .ok chosen

/-- Embeds `WorkflowEngine.instantiate_steps` (`engines/workflow_engine.py`,
lines 112-157).  `fresh_id` stands for the database-assigned primary keys
(`fresh_id + idx` for the step at index `idx`).  The `if 0 < idx` conditional
mirrors the source's `WorkflowStepStatus.PENDING if idx > 0 else
WorkflowStepStatus.PENDING`, and the final update mirrors the
`update_fields(first_step, {"status": PENDING})` call. -/
def instantiate_steps (leave_request : LeaveRequest)
    (approver_ids_in_order : List Nat) (fresh_id : Nat) :
    Except DomainError (List WorkflowStep) :=
  if approver_ids_in_order = [] then
    .error (.workflowState "workflow_definition" "instantiate with no approvers")
  else
    let created := approver_ids_in_order.enum.map (fun p =>
      let idx := p.1
      let approver_id := p.2
      let step_status :=
        if 0 < idx then WorkflowStepStatus.pending else WorkflowStepStatus.pending
      { id := fresh_id + idx
        leave_request_id := leave_request.id
        step_order := idx
        step_name := "Step " ++ toString (idx + 1)
        approver_id := approver_id
        status := step_status
        actioned_at := none
        action_remarks := none : WorkflowStep })
    match created with
    | [] => .ok []
    | first_step :: rest => .ok ({ first_step with status := .pending } :: rest)

end WorkflowEngine

/-- The string `.value` of a `LeaveRequestStatus` (the enum values in
`core/enums.py`). -/
def LeaveRequestStatus.value : LeaveRequestStatus → String
  | .draft => "draft"
  | .pendingApproval => "pending_approval"
  | .approved => "approved"
  | .rejected => "rejected"
  | .cancelled => "cancelled"
  | .withdrawn => "withdrawn"

/-- The string `.value` of a `WorkflowStepStatus` (the enum values in
`core/enums.py`). -/
def WorkflowStepStatus.value : WorkflowStepStatus → String
  | .pending => "pending"
  | .approved => "approved"
  | .rejected => "rejected"
  | .skipped => "skipped"
  | .escalated => "escalated"
  | .delegated => "delegated"

namespace WorkflowEngine

/-- In-place mutation of a step row (`step_repo.update_fields`): replace the
row with the same primary key. -/
def replaceStep (steps : List WorkflowStep) (s : WorkflowStep) : List WorkflowStep :=
  steps.map (fun t => if t.id = s.id then s else t)

/-- In-place mutation of a request row (`leave_request_repo.update_fields`). -/
def replaceRequest (requests : List LeaveRequest) (r : LeaveRequest) : List LeaveRequest :=
  requests.map (fun t => if t.id = r.id then r else t)

/-- Embeds `WorkflowEngine.approve` (`engines/workflow_engine.py`, lines 159-263).
`steps` / `requests` are the step and request tables; returns their updated
state together with the result union. -/
def approve (steps : List WorkflowStep) (requests : List LeaveRequest)
    (step_id actor_user_id : Nat) (comment : Option String) (now : Int) :
    Except DomainError (List WorkflowStep × List LeaveRequest × WorkflowResult) :=
  match steps.find? (fun s => s.id == step_id) with
  | none => .error .entityNotFound
  | some step =>
    match requests.find? (fun r => r.id == step.leave_request_id) with
    | none => .error .entityNotFound
    | some leave_request =>
      if step.approver_id ≠ actor_user_id then
        .error .approvalError
      else if step.status ≠ WorkflowStepStatus.pending then
        .error (.workflowState step.status.value "approve step (expected PENDING)")
      else if leave_request.status ≠ LeaveRequestStatus.pendingApproval then
        .error (.workflowState leave_request.status.value
          "approve step on non-pending leave request")
      else
        let step := { step with
          status := WorkflowStepStatus.approved
          actioned_at := some now
          action_remarks := comment }
        let steps := replaceStep steps step
        let all_steps := List.insertionSort stepOrderAsc
          (steps.filter (fun s => s.leave_request_id = leave_request.id))
        match all_steps.findIdx? (fun s => s.id == step.id) with
        | none => .error .approvalError
        | some current_idx =>
          if h : current_idx + 1 < all_steps.length then
            let next_step := all_steps.get ⟨current_idx + 1, h⟩
            let next_step := { next_step with status := WorkflowStepStatus.pending }
            .ok (replaceStep steps next_step, requests, .stepActivated next_step false)
          else
            let leave_request := { leave_request with
              status := LeaveRequestStatus.approved
              decided_at := some now
              decided_by := some actor_user_id
              decision_remarks := comment }
            .ok (steps, replaceRequest requests leave_request,
              .workflowCompleted leave_request LeaveRequestStatus.approved)

/-- Embeds `WorkflowEngine.reject` (`engines/workflow_engine.py`, lines 265-341). -/
def reject (steps : List WorkflowStep) (requests : List LeaveRequest)
    (step_id actor_user_id : Nat) (comment : Option String) (now : Int) :
    Except DomainError (List WorkflowStep × List LeaveRequest × WorkflowResult) :=
  match steps.find? (fun s => s.id == step_id) with
  | none => .error .entityNotFound
  | some step =>
    match requests.find? (fun r => r.id == step.leave_request_id) with
    | none => .error .entityNotFound
    | some leave_request =>
      if step.approver_id ≠ actor_user_id then
        .error .approvalError
      else if step.status ≠ WorkflowStepStatus.pending then
        .error (.workflowState step.status.value "reject step (expected PENDING)")
      else if leave_request.status ≠ LeaveRequestStatus.pendingApproval then
        .error (.workflowState leave_request.status.value
          "reject step on non-pending leave request")
      else
        let step := { step with
          status := WorkflowStepStatus.rejected
          actioned_at := some now
          action_remarks := comment }
        let steps := replaceStep steps step
        let leave_request := { leave_request with
          status := LeaveRequestStatus.rejected
          decided_at := some now
          decided_by := some actor_user_id
          decision_remarks := comment }
        .ok (steps, replaceRequest requests leave_request,
          .workflowCompleted leave_request LeaveRequestStatus.rejected)

/-- Embeds `WorkflowEngine.withdraw` (`engines/workflow_engine.py`, lines 343-414). -/
def withdraw (steps : List WorkflowStep) (requests : List LeaveRequest)
    (leave_request_id actor_user_id : Nat) (reason : Option String) (now : Int) :
    Except DomainError (List WorkflowStep × List LeaveRequest × WorkflowResult) :=
  match requests.find? (fun r => r.id == leave_request_id) with
  | none => .error .entityNotFound
  | some leave_request =>
    if leave_request.user_id ≠ actor_user_id then
      .error .approvalError
    else if leave_request.status ≠ LeaveRequestStatus.pendingApproval then
      .error (.workflowState leave_request.status.value
        "withdraw leave request (only allowed while PENDING_APPROVAL)")
    else
      let leave_request := { leave_request with
        status := LeaveRequestStatus.withdrawn
        cancelled_at := some now
        cancelled_by := some actor_user_id
        cancellation_reason := reason }
      let requests := replaceRequest requests leave_request
      let steps := steps.map (fun s =>
        if s.leave_request_id = leave_request_id ∧ s.status = WorkflowStepStatus.pending
        then { s with status := WorkflowStepStatus.skipped }
        else s)
      .ok (steps, requests, .workflowCompleted leave_request LeaveRequestStatus.withdrawn)

end WorkflowEngine

/-- The database state the `LeaveEngine` orchestration reads and writes. -/
structure LmsState where
  users : List User
  leave_types : List LeaveType
  policies : List LeavePolicy
  workflows : List WorkflowConfiguration
  requests : List LeaveRequest
  request_dates : List LeaveRequestDate
  steps : List WorkflowStep
  balances : List LeaveBalance
deriving DecidableEq, Repr

namespace LeaveEngine

/-- Embeds `LeaveRequestRepository.find_overlaps` (`repositories/leave_repository.py`,
lines 72-84).  Note: the query has no filter on `status` (or on soft deletion);
it matches requests of the user in any state. -/
def find_overlaps (requests : List LeaveRequest) (user_id : Nat)
    (start_date end_date : Int) : List LeaveRequest :=
  requests.filter (fun r =>
    r.user_id = user_id ∧
      ((r.start_date ≤ start_date ∧ start_date ≤ r.end_date) ∨
       (r.start_date ≤ end_date ∧ end_date ≤ r.end_date) ∨
       (start_date ≤ r.start_date ∧ r.end_date ≤ end_date)))

/-- The per-day expansion loop of `create_leave_request`
(`while cur <= end_date`). -/
def date_range (start_date end_date : Int) : List Int :=
  (List.range (end_date + 1 - start_date).toNat).map (fun i => start_date + i)

/-- Embeds `LeaveEngine.create_leave_request` (`engines/leave_engine.py`, lines 63-112).
`request_number` stands for the randomly generated `LR-…` string and `fresh_id`
for the database-assigned primary key; `now` is the instant used by policy
resolution and the eligibility check. -/
def create_leave_request (st : LmsState) (user_id leave_type_id : Nat)
    (start_date end_date : Int) (total_days : ℚ) (reason : Option String)
    (request_number : String) (fresh_id : Nat) (now : Int) :
    Except DomainError (LmsState × LeaveRequest) :=
  let overlaps := find_overlaps st.requests user_id start_date end_date
  if overlaps ≠ [] then
    .error (.leaveOverlap (overlaps.map (fun r => r.id)))
  else
    match st.users.find? (fun u => u.id == user_id) with
    | none => .error .entityNotFound
    | some user =>
      match st.leave_types.find? (fun t => t.id == leave_type_id) with
      | none => .error .entityNotFound
      | some leave_type =>
        match PolicyEngine.resolve_policy_for_user st.policies user leave_type.id now with
        | .error e => .error e
        | .ok policy =>
          match PolicyEngine.assert_eligible user policy now with
          | .error e => .error e
          | .ok _ =>
            let req : LeaveRequest := {
              id := fresh_id
              request_number := request_number
              user_id := user.id
              leave_type_id := leave_type.id
              policy_id := policy.id
              start_date := start_date
              end_date := end_date
              total_days := total_days
              reason := reason
              status := LeaveRequestStatus.draft
              submitted_at := none
              decided_at := none
              decided_by := none
              decision_remarks := none
              cancelled_at := none
              cancelled_by := none
              cancellation_reason := none }
            let dates := (date_range start_date end_date).map (fun d =>
              { leave_request_id := req.id
                leave_date := d
                day_value := 1 : LeaveRequestDate })
            .ok ({ st with
                    requests := st.requests ++ [req]
                    request_dates := st.request_dates ++ dates }, req)

/-- Embeds `LeaveEngine.submit` (`engines/leave_engine.py`, lines 114-180).
`fresh_step_id` stands for the database-assigned primary keys of the created
steps.  The source orchestrates: DRAFT check, workflow resolution, approver
list from `user.manager_id`, `instantiate_steps`, then the transition to
PENDING_APPROVAL — it performs no balance operation, so `st.balances` passes
through unchanged. -/
def submit (st : LmsState) (request_id : Nat) (now : Int) (fresh_step_id : Nat) :
    Except DomainError (LmsState × LeaveRequest) :=
  match st.requests.find? (fun r => r.id == request_id) with
  | none => .error .entityNotFound
  | some req =>
    if req.status ≠ LeaveRequestStatus.draft then
      .error (.workflowState req.status.value "submit (only DRAFT requests can be submitted)")
    else
      match st.users.find? (fun u => u.id == req.user_id) with
      | none => .error .entityNotFound
      | some user =>
        match WorkflowEngine.resolve_workflow st.workflows user.organization_id now with
        | .error e => .error e
        | .ok _workflow =>
          let approver_ids :=
            match user.manager_id with
            | some m => [m]
            | none => []
          if approver_ids = [] then
            .error .workflowNotFound
          else
            match WorkflowEngine.instantiate_steps req approver_ids fresh_step_id with
            | .error e => .error e
            | .ok created =>
              let req := { req with
                status := LeaveRequestStatus.pendingApproval
                submitted_at := some now }
              .ok ({ st with
                      steps := st.steps ++ created
                      requests := WorkflowEngine.replaceRequest st.requests req }, req)

/-- One entry of the `balances` list returned by `LeaveEngine.get_leave_balance`
(`engines/leave_engine.py`, lines 415-453). -/
structure BalanceSummaryRow where
  leave_type_id : Nat
  opening_balance : ℚ
  accrued : ℚ
  used : ℚ
  pending : ℚ
  adjusted : ℚ
  carried_forward : ℚ
  available : ℚ
deriving DecidableEq, Repr

/-- Embeds `LeaveEngine.get_leave_balance` (`engines/leave_engine.py`, lines 415-453):
all balances of the user, each with the derived `available` computed inline as
`opening_balance + accrued + adjusted + carried_forward - used - pending`. -/
def get_leave_balance (balances : List LeaveBalance) (user_id : Nat) :
    List BalanceSummaryRow :=
  (balances.filter (fun b => b.user_id = user_id)).map (fun b =>
    { leave_type_id := b.leave_type_id
      opening_balance := b.opening_balance
      accrued := b.accrued
      used := b.used
      pending := b.pending
      adjusted := b.adjusted
      carried_forward := b.carried_forward
      available := b.opening_balance + b.accrued + b.adjusted + b.carried_forward
        - b.used - b.pending })

end LeaveEngine

section Fixtures

/-- A DRAFT request for 3 days (scenario of spec §8.1). -/
def reqC1 : LeaveRequest :=
  { id := 1, request_number := "LR-000000000001", user_id := 1, leave_type_id := 1
    policy_id := 1, start_date := 10, end_date := 12, total_days := 3
    reason := some "vac", status := LeaveRequestStatus.draft
    submitted_at := none, decided_at := none, decided_by := none
    decision_remarks := none, cancelled_at := none, cancelled_by := none
    cancellation_reason := none }

/-- A balance row with `opening=20` and every other component 0. -/
def balC1 : LeaveBalance :=
  { id := 1, user_id := 1, leave_type_id := 1, period_start := 0, period_end := 365
    opening_balance := 20, accrued := 0, used := 0, pending := 0, adjusted := 0
    carried_forward := 0, encashed := 0, expired := 0
    leave_type_code := some "ANNUAL" }

/-- User `U` with manager `M = 2`. -/
def userC1 : User :=
  { id := 1, organization_id := 1, manager_id := some 2
    probation_end_date := none, hire_date := none }

/-- An active workflow definition covering every instant. -/
def wfC1 : WorkflowConfiguration :=
  { id := 1, organization_id := 1, priority := 0, effective_from := 0
    effective_to := none, is_active := true }

/-- Database state of spec §8 scenario 1 just before `submit`. -/
def stC1 : LmsState :=
  { users := [userC1]
    leave_types := [{ id := 1, organization_id := 1, code := "ANNUAL", is_active := true }]
    policies := []
    workflows := [wfC1]
    requests := [reqC1]
    request_dates := []
    steps := []
    balances := [balC1] }

end Fixtures

/-- Claim C1: the spec says `LeaveEngine.submit` invokes `BalanceEngine.on_submit`
so that after a successful submit the balance row's `pending` has increased by
`total_days`.  The source's `submit` performs no balance operation at all (no
`BalanceEngine` is even constructed by `LeaveEngine`): on the spec's own
scenario (opening=20, total_days=3) submit succeeds, the request becomes
PENDING_APPROVAL, yet the balance table is unchanged and `pending` is still 0
instead of 3. -/
theorem submit_leaves_balance_unchanged :
    (LeaveEngine.submit stC1 1 10 100).map
        (fun p => (p.2.status, p.1.balances)) =
      .ok (LeaveRequestStatus.pendingApproval, [balC1]) ∧
    balC1.pending = 0 := by
  exact ⟨rfl, rfl⟩

section FixturesC3C4

/-- A PENDING_APPROVAL request whose workflow has two approvers. -/
def reqC4 : LeaveRequest :=
  { reqC1 with status := LeaveRequestStatus.pendingApproval }

/-- First step (order 0, approver 7), as `instantiate_steps` persists it. -/
def stepA1 : WorkflowStep :=
  { id := 1, leave_request_id := 1, step_order := 0, step_name := "Step 1"
    approver_id := 7, status := WorkflowStepStatus.pending
    actioned_at := none, action_remarks := none }

/-- Second step (order 1, approver 8), as `instantiate_steps` persists it. -/
def stepA2 : WorkflowStep :=
  { id := 2, leave_request_id := 1, step_order := 1, step_name := "Step 2"
    approver_id := 8, status := WorkflowStepStatus.pending
    actioned_at := none, action_remarks := none }

end FixturesC3C4

/-- Claim C3: the spec's invariant says that after `instantiate_steps` with
`n ≥ 2` approvers exactly one step is PENDING.  In the source the conditional
`PENDING if idx > 0 else PENDING` assigns PENDING to every step (and the
follow-up `update_fields` sets the first step to PENDING again), so
instantiating with two approvers leaves both steps PENDING — contradicting the
source's own comment "Only first step is active; others are pending". -/
theorem instantiate_steps_two_approvers_both_pending :
    (WorkflowEngine.instantiate_steps reqC1 [7, 8] 1).map
        (fun l => l.map (fun s => (s.step_order, s.approver_id, s.status))) =
      .ok [(0, 7, WorkflowStepStatus.pending), (1, 8, WorkflowStepStatus.pending)] := by
  rfl

/-- Claim C4: the spec says approving A2's step before A1 acted must raise
`WorkflowStateException`.  Because `instantiate_steps` left A2's step PENDING
(see C3) and `approve` checks only the step's own status, the out-of-order
approval passes every guard, marks A2's step APPROVED, and — since A2's step
is the last by `step_order` — completes the whole workflow as APPROVED while
A1's step is still PENDING.  No exception is raised. -/
theorem approve_out_of_order_succeeds :
    (WorkflowEngine.approve [stepA1, stepA2] [reqC4] 2 8 none 50).map
        (fun r => (r.2.2, r.1.map (fun s => s.status),
          r.2.1.map (fun q => q.status))) =
      .ok (WorkflowEngine.WorkflowResult.workflowCompleted
            { reqC4 with
                status := LeaveRequestStatus.approved
                decided_at := some 50
                decided_by := some 8
                decision_remarks := none }
            LeaveRequestStatus.approved,
          [WorkflowStepStatus.pending, WorkflowStepStatus.approved],
          [LeaveRequestStatus.approved]) := by
  rfl

/-- The balance row exposing C9: `encashed = 2`, `expired = 1`, everything
else 0. -/
def balC9 : LeaveBalance :=
  { id := 2, user_id := 1, leave_type_id := 1, period_start := 0, period_end := 365
    opening_balance := 0, accrued := 0, used := 0, pending := 0, adjusted := 0
    carried_forward := 0, encashed := 2, expired := 1
    leave_type_code := some "ANNUAL" }

/-- Claim C9: the spec says `get_leave_balance` reports the same derived
`available` as the model's `available_balance` property, including the
`encashed` and `expired` components.  The engine's inline formula omits both
components: on a balance with `encashed = 2`, `expired = 1` and every other
component 0 it reports `available = 0` while `available_balance = -3`. -/
theorem get_leave_balance_omits_encashed_expired :
    (LeaveEngine.get_leave_balance [balC9] 1).map (fun row => row.available) = [0] ∧
    balC9.available_balance = -3 := by
  constructor
  · norm_num [LeaveEngine.get_leave_balance, balC9]
  · norm_num [LeaveBalance.available_balance, balC9]

/-- Claim C2: `BalanceEngine.on_submit` on an existing balance row either —
when `available ≥ total_days` — succeeds mutating nothing but `pending`
(increased by exactly `total_days`), or raises `InsufficientBalance` carrying
the current available, the requested days and the leave type code, leaving the
row unchanged. -/
theorem on_submit_reserves_or_raises (b : LeaveBalance) (lr : LeaveRequest)
    (c : String) (hc : b.leave_type_code = some c) :
    (b.available_balance ≥ lr.total_days →
      BalanceEngine.on_submit (some b) lr =
        .ok { b with pending := b.pending + lr.total_days }) ∧
    (b.available_balance < lr.total_days →
      BalanceEngine.on_submit (some b) lr =
        .error (.insufficientBalance b.available_balance lr.total_days c)) := by
  constructor
  · intro h
    simp [BalanceEngine.on_submit, h]
  · intro h
    simp [BalanceEngine.on_submit, BalanceEngine.codeOrUnknown, hc, not_le, h,
      not_le.mpr h]

/-- Witness for C2 at the spec's scenario-1 input: `opening = 20 ≥ 3 =
total_days`, so submit reserves 3 pending days. -/
theorem on_submit_reserves_or_raises_wit :
    BalanceEngine.on_submit (some balC1) reqC1 =
      .ok { balC1 with pending := balC1.pending + reqC1.total_days } := by
  have h := on_submit_reserves_or_raises balC1 reqC1 "ANNUAL" rfl
  exact h.1 (by norm_num [LeaveBalance.available_balance, balC1, reqC1])

/-- Claim C10: when the balance row exists but holds an insufficient pending
reservation (`pending < total_days`), both `on_reject` and `on_withdraw`
return without raising and without touching any field of the row — the
defensive no-op is not limited to a missing row. -/
theorem on_reject_on_withdraw_insufficient_noop (b : LeaveBalance)
    (lr : LeaveRequest) (h : b.pending < lr.total_days) :
    BalanceEngine.on_reject (some b) lr = some b ∧
    BalanceEngine.on_withdraw (some b) lr = some b := by
  constructor
  · simp [BalanceEngine.on_reject, not_le, h]
  · simp [BalanceEngine.on_withdraw, not_le, h]

/-- Witness for C10: `pending = 0 < 3 = total_days`, both releases are
no-ops. -/
theorem on_reject_on_withdraw_insufficient_noop_wit :
    BalanceEngine.on_reject (some balC1) reqC1 = some balC1 ∧
    BalanceEngine.on_withdraw (some balC1) reqC1 = some balC1 :=
  on_reject_on_withdraw_insufficient_noop balC1 reqC1 (by norm_num [balC1, reqC1])

/-- Claim C7: `WorkflowEngine.withdraw` raises `ApprovalException` when the
actor is not the request owner; raises `WorkflowStateException` when the owner
withdraws a request not in PENDING_APPROVAL; otherwise marks the request
WITHDRAWN (setting `cancelled_at`, `cancelled_by`, `cancellation_reason`),
turns exactly the request's PENDING steps into SKIPPED and leaves every other
step untouched. -/
theorem withdraw_spec (steps : List WorkflowStep) (requests : List LeaveRequest)
    (lrid actor : Nat) (reason : Option String) (now : Int) (req : LeaveRequest)
    (hfind : requests.find? (fun r => r.id == lrid) = some req) :
    (req.user_id ≠ actor →
      WorkflowEngine.withdraw steps requests lrid actor reason now =
        .error .approvalError) ∧
    (req.user_id = actor → req.status ≠ LeaveRequestStatus.pendingApproval →
      WorkflowEngine.withdraw steps requests lrid actor reason now =
        .error (.workflowState req.status.value
          "withdraw leave request (only allowed while PENDING_APPROVAL)")) ∧
    (req.user_id = actor → req.status = LeaveRequestStatus.pendingApproval →
      WorkflowEngine.withdraw steps requests lrid actor reason now =
        .ok (steps.map (fun s =>
              if s.leave_request_id = lrid ∧ s.status = WorkflowStepStatus.pending
              then { s with status := WorkflowStepStatus.skipped } else s),
          WorkflowEngine.replaceRequest requests
            { req with
                status := LeaveRequestStatus.withdrawn
                cancelled_at := some now
                cancelled_by := some actor
                cancellation_reason := reason },
          .workflowCompleted
            { req with
                status := LeaveRequestStatus.withdrawn
                cancelled_at := some now
                cancelled_by := some actor
                cancellation_reason := reason }
            LeaveRequestStatus.withdrawn)) := by
  refine ⟨?_, ?_, ?_⟩
  · intro h1
    simp [WorkflowEngine.withdraw, hfind, h1]
  · intro h1 h2
    simp [WorkflowEngine.withdraw, hfind, h1, h2]
  · intro h1 h2
    simp [WorkflowEngine.withdraw, hfind, h1, h2]

/-- Witness for C7 at a concrete success input: the owner (user 1) withdraws
a PENDING_APPROVAL request; both PENDING steps become SKIPPED. -/
theorem withdraw_spec_wit :
    WorkflowEngine.withdraw [stepA1, stepA2] [reqC4] 1 1 (some "changed mind") 50 =
      .ok ([{ stepA1 with status := WorkflowStepStatus.skipped },
            { stepA2 with status := WorkflowStepStatus.skipped }],
        [{ reqC4 with
            status := LeaveRequestStatus.withdrawn
            cancelled_at := some 50
            cancelled_by := some 1
            cancellation_reason := some "changed mind" }],
        .workflowCompleted
          { reqC4 with
              status := LeaveRequestStatus.withdrawn
              cancelled_at := some 50
              cancelled_by := some 1
              cancellation_reason := some "changed mind" }
          LeaveRequestStatus.withdrawn) := by
  have h := (withdraw_spec [stepA1, stepA2] [reqC4] 1 1 (some "changed mind") 50
    reqC4 rfl).2.2 rfl rfl
  rw [h]
  rfl

section FixturesC5

/-- A user with no special eligibility constraints. -/
def userC5 : User :=
  { id := 1, organization_id := 1, manager_id := none
    probation_end_date := none, hire_date := none }

/-- An active leave type of organization 1. -/
def ltC5 : LeaveType :=
  { id := 1, organization_id := 1, code := "ANNUAL", is_active := true }

/-- An active policy with IMMEDIATE eligibility. -/
def polC5 : LeavePolicy :=
  { id := 1, organization_id := 1, leave_type_id := 1, effective_from := 0
    effective_to := none, is_active := true
    eligibility_type := EligibilityType.immediate, eligibility_tenure_days := none }

/-- A state in which every collaborator check of `create_leave_request`
passes and no requests exist yet. -/
def stC5 : LmsState :=
  { users := [userC5], leave_types := [ltC5], policies := [polC5]
    workflows := [], requests := [], request_dates := [], steps := []
    balances := [] }

end FixturesC5

/-- Counterexample to claim C5: `create_leave_request` contains no validation
of the date window or of `total_days`.  With `start_date = 10 > 5 = end_date`
and `total_days = -1` the call succeeds and creates a DRAFT request carrying
exactly those values, contradicting the claim that such calls fail. -/
theorem create_accepts_invalid_window :
    (LeaveEngine.create_leave_request stC5 1 1 10 5 (-1) none "LR-A" 50 0).map
        (fun p => (p.2.status, p.2.start_date, p.2.end_date, p.2.total_days)) =
      .ok (LeaveRequestStatus.draft, 10, 5, -1) := by
  rfl

/-- Claim C5 as amended: `create_leave_request` performs no validation of
`end_date ≥ start_date` or `total_days > 0`; whenever the overlap check, the
user and leave-type lookups, policy resolution and the eligibility check pass,
it creates a DRAFT request carrying exactly the given window and day count —
for any window and any day count, including `end_date < start_date` and
`total_days ≤ 0`. -/
theorem create_no_date_validation (st : LmsState) (uid lt : Nat) (s e : Int)
    (td : ℚ) (reason : Option String) (rn : String) (fid : Nat) (now : Int)
    (user : User) (ltype : LeaveType) (policy : LeavePolicy)
    (hov : LeaveEngine.find_overlaps st.requests uid s e = [])
    (hu : st.users.find? (fun u => u.id == uid) = some user)
    (hl : st.leave_types.find? (fun t => t.id == lt) = some ltype)
    (hp : PolicyEngine.resolve_policy_for_user st.policies user ltype.id now = .ok policy)
    (he : PolicyEngine.assert_eligible user policy now = .ok ()) :
    ∃ st2 req,
      LeaveEngine.create_leave_request st uid lt s e td reason rn fid now =
        .ok (st2, req) ∧
      req.status = LeaveRequestStatus.draft ∧ req.start_date = s ∧
      req.end_date = e ∧ req.total_days = td ∧
      st2.requests = st.requests ++ [req] := by
  simp only [LeaveEngine.create_leave_request, hov, hu, hl, hp, he, ne_eq,
    not_true_eq_false, not_false_eq_true, if_false, ite_false, if_neg]
  exact ⟨_, _, rfl, rfl, rfl, rfl, rfl, rfl⟩

/-- Witness for (amended) C5 at the invalid concrete input
`start = 10 > 5 = end`, `total_days = -1`. -/
theorem create_no_date_validation_wit :
    ∃ st2 req,
      LeaveEngine.create_leave_request stC5 1 1 10 5 (-1) none "LR-A" 50 0 =
        .ok (st2, req) ∧
      req.status = LeaveRequestStatus.draft ∧ req.start_date = 10 ∧
      req.end_date = 5 ∧ req.total_days = -1 ∧
      st2.requests = stC5.requests ++ [req] :=
  create_no_date_validation stC5 1 1 10 5 (-1) none "LR-A" 50 0 userC5 ltC5 polC5
    rfl rfl rfl rfl rfl

section FixturesC6

/-- A REJECTED (terminal) request of user 1 over `[1, 5]`. -/
def reqC6 : LeaveRequest :=
  { reqC1 with
      id := 9
      start_date := 1
      end_date := 5
      status := LeaveRequestStatus.rejected }

/-- State whose only request is the terminal `reqC6`. -/
def stC6 : LmsState := { stC5 with requests := [reqC6] }

/-- A PENDING_APPROVAL request of user 1 over `[1, 5]`. -/
def reqC6w : LeaveRequest :=
  { reqC1 with
      id := 11
      start_date := 1
      end_date := 5
      status := LeaveRequestStatus.pendingApproval }

/-- State whose only request is the non-terminal `reqC6w`. -/
def stC6w : LmsState := { stC5 with requests := [reqC6w] }

end FixturesC6

/-- When the overlap query returns rows, `create_leave_request` raises
`LeaveOverlap` carrying their identifiers (its first guard). -/
theorem create_overlap_branch (st : LmsState) (uid lt : Nat) (s e : Int)
    (td : ℚ) (reason : Option String) (rn : String) (fid : Nat) (now : Int)
    (h : LeaveEngine.find_overlaps st.requests uid s e ≠ []) :
    LeaveEngine.create_leave_request st uid lt s e td reason rn fid now =
      .error (.leaveOverlap
        ((LeaveEngine.find_overlaps st.requests uid s e).map (fun r => r.id))) := by
  simp [LeaveEngine.create_leave_request, h]

/-- The only error `resolve_policy_for_user` raises is `PolicyNotFound`. -/
theorem resolve_policy_error_eq (policies : List LeavePolicy) (user : User)
    (lt : Nat) (t : Int) (e2 : DomainError)
    (h : PolicyEngine.resolve_policy_for_user policies user lt t = .error e2) :
    e2 = DomainError.policyNotFound := by
  unfold PolicyEngine.resolve_policy_for_user at h
  rcases h1 : PolicyEngine.get_active_for_leave_type policies
      user.organization_id lt with _ | ⟨c, rest⟩
  · rw [h1] at h
    simp at h
    exact h.symm
  · rw [h1] at h
    simp at h

/-- The only error `assert_eligible` raises is `EligibilityException`. -/
theorem assert_eligible_error_eq (user : User) (policy : LeavePolicy) (t : Int)
    (e3 : DomainError)
    (h : PolicyEngine.assert_eligible user policy t = .error e3) :
    e3 = DomainError.eligibility := by
  unfold PolicyEngine.assert_eligible at h
  split at h
  · split at h
    · injection h with h2
      exact h2.symm
    · try dsimp only at h
      split at h
      · injection h with h2
        exact h2.symm
      · simp at h
  · split at h
    · injection h with h2
      exact h2.symm
    · try dsimp only at h
      split at h
      · injection h with h2
        exact h2.symm
      · simp at h
  · simp at h

/-- When the overlap query returns no rows, no branch of
`create_leave_request` can produce a `LeaveOverlap` error. -/
theorem create_no_overlap_no_leaveOverlap (st : LmsState) (uid lt : Nat)
    (s e : Int) (td : ℚ) (reason : Option String) (rn : String) (fid : Nat)
    (now : Int) (hov : LeaveEngine.find_overlaps st.requests uid s e = [])
    (ids : List Nat) :
    LeaveEngine.create_leave_request st uid lt s e td reason rn fid now ≠
      .error (.leaveOverlap ids) := by
  intro hids
  rcases hfu : st.users.find? (fun u => u.id == uid) with _ | user
  · simp [LeaveEngine.create_leave_request, hov, hfu] at hids
  rcases hfl : st.leave_types.find? (fun t => t.id == lt) with _ | ltype
  · simp [LeaveEngine.create_leave_request, hov, hfu, hfl] at hids
  rcases hrp : PolicyEngine.resolve_policy_for_user st.policies user ltype.id now
    with e2 | pol
  · rw [resolve_policy_error_eq st.policies user ltype.id now e2 hrp] at hrp
    simp [LeaveEngine.create_leave_request, hov, hfu, hfl, hrp] at hids
  rcases hae : PolicyEngine.assert_eligible user pol now with e3 | u3
  · rw [assert_eligible_error_eq user pol now e3 hae] at hae
    simp [LeaveEngine.create_leave_request, hov, hfu, hfl, hrp, hae] at hids
  · simp [LeaveEngine.create_leave_request, hov, hfu, hfl, hrp, hae] at hids

/-- Counterexample to claim C6: the overlap query of `find_overlaps` has no
status filter, so a terminal (REJECTED) request of the same user over an
intersecting window still makes `create_leave_request` raise `LeaveOverlap` —
the claim's exemption for terminal states does not hold. -/
theorem create_blocked_by_terminal_request :
    (∃ ids, LeaveEngine.create_leave_request stC6 1 1 3 7 3 none "LR-B" 50 0 =
        .error (.leaveOverlap ids)) ∧
    ∀ r ∈ stC6.requests, r.status = LeaveRequestStatus.rejected := by
  constructor
  · exact ⟨[9], by rfl⟩
  · intro r hr
    have : r = reqC6 := by simpa [stC6, stC5] using hr
    simp [this, reqC6]

/-- Claim C6 as amended: `create_leave_request` raises `LeaveOverlap` if and
only if some existing request of the same user — in any status, terminal
states included — has a window intersecting `[start_date, end_date]`
(inclusive on both ends). -/
theorem create_overlap_iff_any_status (st : LmsState) (uid lt : Nat) (s e : Int)
    (td : ℚ) (reason : Option String) (rn : String) (fid : Nat) (now : Int)
    (hse : s ≤ e) (hwf : ∀ r ∈ st.requests, r.start_date ≤ r.end_date) :
    (∃ ids, LeaveEngine.create_leave_request st uid lt s e td reason rn fid now =
        .error (.leaveOverlap ids)) ↔
      ∃ r ∈ st.requests, r.user_id = uid ∧ r.start_date ≤ e ∧ s ≤ r.end_date := by
  constructor
  · rintro ⟨ids, hids⟩
    by_cases hov : LeaveEngine.find_overlaps st.requests uid s e = []
    · exact absurd hids
        (create_no_overlap_no_leaveOverlap st uid lt s e td reason rn fid now hov ids)
    · obtain ⟨r, hrmem⟩ := List.exists_mem_of_ne_nil _ hov
      obtain ⟨hrl, hpred⟩ := List.mem_filter.mp hrmem
      simp only [decide_eq_true_eq] at hpred
      obtain ⟨hu2, hd⟩ := hpred
      have hwfr := hwf r hrl
      refine ⟨r, hrl, hu2, ?_, ?_⟩ <;>
        rcases hd with ⟨a, b⟩ | ⟨a, b⟩ | ⟨a, b⟩ <;> omega
  · rintro ⟨r, hrl, hu2, h1, h2⟩
    have hwfr := hwf r hrl
    have hmem : r ∈ LeaveEngine.find_overlaps st.requests uid s e := by
      refine List.mem_filter.mpr ⟨hrl, ?_⟩
      simp only [decide_eq_true_eq]
      exact ⟨hu2, by omega⟩
    exact ⟨_, create_overlap_branch st uid lt s e td reason rn fid now
      (List.ne_nil_of_mem hmem)⟩

/-- Witness for (amended) C6: a PENDING_APPROVAL request over `[1, 5]` blocks
a new window `[3, 7]` of the same user. -/
theorem create_overlap_iff_any_status_wit :
    ∃ ids, LeaveEngine.create_leave_request stC6w 1 1 3 7 3 none "LR-C" 50 0 =
      .error (.leaveOverlap ids) := by
  refine (create_overlap_iff_any_status stC6w 1 1 3 7 3 none "LR-C" 50 0
    (by norm_num) ?_).mpr ⟨reqC6w, by simp [stC6w, stC5], rfl, by decide, by decide⟩
  intro r hr
  have : r = reqC6w := by simpa [stC6w, stC5] using hr
  simp [this, reqC6w, reqC1]

section FixturesC8

/-- An active policy whose effective window `[10, ∞)` starts in the future
relative to the query instant 5. -/
def polC8 : LeavePolicy :=
  { id := 3, organization_id := 1, leave_type_id := 1, effective_from := 10
    effective_to := none, is_active := true
    eligibility_type := EligibilityType.immediate, eligibility_tenure_days := none }

/-- The user whose organization owns the C8 policies. -/
def userC8 : User :=
  { id := 4, organization_id := 1, manager_id := none
    probation_end_date := none, hire_date := none }

/-- An older active policy (`effective_from = 5`). -/
def polC8old : LeavePolicy := { polC8 with id := 5, effective_from := 5 }

/-- A more recent active policy (`effective_from = 10`). -/
def polC8new : LeavePolicy := { polC8 with id := 6, effective_from := 10 }

end FixturesC8

/-- Counterexample to claim C8: `get_active_for_leave_type` has no filter on
the effective window and `resolve_policy_for_user` ignores `at_time`, so an
active policy whose `effective_from = 10` lies after the query instant 5 is
returned anyway — the claim says such a policy is never returned and that
`PolicyNotFound` is raised when no window covers `at_time`. -/
theorem resolve_policy_returns_future_policy :
    PolicyEngine.resolve_policy_for_user [polC8] userC8 1 5 = .ok polC8 ∧
    5 < polC8.effective_from :=
  ⟨rfl, by norm_num [polC8]⟩

/-- Membership in `get_active_for_leave_type`: exactly the active policies of
the organization and leave type (sorting permutes, the window is not
consulted). -/
theorem mem_get_active (policies : List LeavePolicy) (org lt : Nat)
    (q : LeavePolicy) :
    q ∈ PolicyEngine.get_active_for_leave_type policies org lt ↔
      q ∈ policies ∧ q.organization_id = org ∧ q.leave_type_id = lt ∧
        q.is_active = true := by
  unfold PolicyEngine.get_active_for_leave_type
  rw [(List.perm_insertionSort _ _).mem_iff, List.mem_filter]
  simp

/-- Claim C8 as amended: `resolve_policy_for_user` returns, among the active
policies of the user's organization and the given leave type, one with the
most-recent `effective_from` — without restricting to policies whose effective
window covers `at_time` (the instant is ignored) — and raises `PolicyNotFound`
exactly when the organization has no active policy for that leave type at
all. -/
theorem resolve_policy_most_recent_active (policies : List LeavePolicy)
    (user : User) (lt : Nat) (t : Int) :
    (∀ p, PolicyEngine.resolve_policy_for_user policies user lt t = .ok p →
      p ∈ policies ∧ p.organization_id = user.organization_id ∧
        p.leave_type_id = lt ∧ p.is_active = true ∧
        ∀ q ∈ policies, q.organization_id = user.organization_id →
          q.leave_type_id = lt → q.is_active = true →
          q.effective_from ≤ p.effective_from) ∧
    (PolicyEngine.resolve_policy_for_user policies user lt t =
        .error DomainError.policyNotFound ↔
      ∀ q ∈ policies, ¬(q.organization_id = user.organization_id ∧
        q.leave_type_id = lt ∧ q.is_active = true)) := by
  constructor
  · intro p hp
    unfold PolicyEngine.resolve_policy_for_user at hp
    rcases h1 : PolicyEngine.get_active_for_leave_type policies
        user.organization_id lt with _ | ⟨c, rest⟩
    · rw [h1] at hp
      simp at hp
    · rw [h1] at hp
      simp at hp
      subst hp
      have hcmem : c ∈ PolicyEngine.get_active_for_leave_type policies
          user.organization_id lt := by
        rw [h1]
        exact List.mem_cons_self c rest
      obtain ⟨hc1, hc2, hc3, hc4⟩ :=
        (mem_get_active policies user.organization_id lt c).mp hcmem
      refine ⟨hc1, hc2, hc3, hc4, ?_⟩
      intro q hq hqo hql hqa
      have hqmem : q ∈ PolicyEngine.get_active_for_leave_type policies
          user.organization_id lt :=
        (mem_get_active policies user.organization_id lt q).mpr ⟨hq, hqo, hql, hqa⟩
      rw [h1] at hqmem
      rcases List.mem_cons.mp hqmem with h2 | hqrest
      · rw [h2]
      · have hsorted : List.Sorted PolicyEngine.effectiveFromDesc (c :: rest) := by
          rw [← h1]
          exact List.sorted_insertionSort PolicyEngine.effectiveFromDesc _
        exact List.rel_of_sorted_cons hsorted q hqrest
  · constructor
    · intro h q hq hcontra
      obtain ⟨hqo, hql, hqa⟩ := hcontra
      have hqmem : q ∈ PolicyEngine.get_active_for_leave_type policies
          user.organization_id lt :=
        (mem_get_active policies user.organization_id lt q).mpr ⟨hq, hqo, hql, hqa⟩
      unfold PolicyEngine.resolve_policy_for_user at h
      rcases h1 : PolicyEngine.get_active_for_leave_type policies
          user.organization_id lt with _ | ⟨c, rest⟩
      · rw [h1] at hqmem
        simp at hqmem
      · rw [h1] at h
        simp at h
    · intro hnone
      unfold PolicyEngine.resolve_policy_for_user
      rcases h1 : PolicyEngine.get_active_for_leave_type policies
          user.organization_id lt with _ | ⟨c, rest⟩
      · rfl
      · exfalso
        have hcmem : c ∈ PolicyEngine.get_active_for_leave_type policies
            user.organization_id lt := by
          rw [h1]
          exact List.mem_cons_self c rest
        obtain ⟨hc1, hc2, hc3, hc4⟩ :=
          (mem_get_active policies user.organization_id lt c).mp hcmem
        exact hnone c hc1 ⟨hc2, hc3, hc4⟩

/-- Witness for (amended) C8: with an older (`effective_from = 5`) and a newer
(`effective_from = 10`) active policy, resolution returns the newer one and it
dominates every matching policy's `effective_from`. -/
theorem resolve_policy_most_recent_active_wit :
    polC8new ∈ [polC8old, polC8new] ∧
    polC8new.organization_id = userC8.organization_id ∧
    polC8new.leave_type_id = 1 ∧ polC8new.is_active = true ∧
    ∀ q ∈ [polC8old, polC8new], q.organization_id = userC8.organization_id →
      q.leave_type_id = 1 → q.is_active = true →
      q.effective_from ≤ polC8new.effective_from :=
  (resolve_policy_most_recent_active [polC8old, polC8new] userC8 1 0).1
    polC8new rfl
